import Mathlib

/-!
Verification of the test-data cache synchronizer and fixture logic of
`ai_testsuite.py` (a pytest conftest-style module).

The module's effectful session setup is embedded shallowly: filesystem
state is explicit (the test-data directory, the archive file living
inside it), network behaviour is an explicit environment record, and
every library call (`os.path.getsize`, `urllib.request.urlretrieve`,
`tarfile.extractall`, `shutil.rmtree`, `os.mkdir`, `shutil.copy2`,
`tempfile.TemporaryDirectory`, `pytest.exit`, `logging.error`, `print`)
is modelled by its observable effect on that state plus an event trace.
Tar decoding itself is external library code, so extraction is
parametrised by an arbitrary `members : List Nat → List String`
function mapping archive bytes to the entry names extracted from them;
`tar.extractall` overlays those entries onto the directory without
removing existing ones and never deletes the archive file.
-/

namespace AiTestsuite

/-- Contents of the test-data directory `test_dir`: the archive file
`test_data.tar.gz` that lives inside it (absent or its bytes), and the
other entries present in the directory (extracted fixture names). -/
structure DirState where
  archive : Option (List Nat)
  entries : List String
deriving DecidableEq, Repr

/-- Filesystem state relevant to the synchronizer: the test-data
directory either does not exist (`none`) or exists with contents.
Since `test_data_archive = join(test_dir, __TEST_DATA_FILENAME)`, the
archive file can only exist when the directory does. -/
structure FS where
  dataDir : Option DirState
deriving DecidableEq, Repr

/-- Behaviour of the remote host for this session:
`headContentLength` is the value of `int(u.info()["Content-Length"])`
when `urllib.request.urlopen` succeeds, `none` when the metadata query
raises; `body` is the bytes delivered by `urllib.request.urlretrieve`
when the download succeeds, `none` when it raises. -/
structure Remote where
  headContentLength : Option Nat
  body : Option (List Nat)
deriving DecidableEq, Repr

/-- Python exceptions that the modelled code can raise. -/
inductive Err where
  | nameError
  | fileNotFound
  | netError
deriving DecidableEq, Repr

/-- Observable events emitted by the modelled code, in program order. -/
inductive Event where
  | netHead
  | netGet
  | logError
  | printMsg
  | rmtreeDir
  | mkdirDir
  | extractArchive
  | tempCreate
  | tempRemove
  | copyToTemp
  | copyFromTemp
deriving DecidableEq, Repr

/-- How a modelled routine terminates: normal return, `pytest.exit`
(session abort), or an uncaught Python exception. -/
inductive Outcome where
  | ok
  | exited
  | raised (e : Err)
deriving DecidableEq, Repr

/-- Result of running an effectful routine: how it ended, the final
filesystem state, and the trace of emitted events. -/
structure RunResult where
  outcome : Outcome
  fs : FS
  events : List Event
deriving DecidableEq, Repr

/-- `os.path.getsize(test_data_archive)`: the archive's byte size, or
`none` when the call raises `OSError` (file or directory absent). -/
def getsize (fs : FS) : Option Nat :=
  match fs.dataDir with
  | some d =>
    match d.archive with
    | some b => some b.length
    | none => none
  | none => none

/-- `local_size` as computed at lines 196-199 of
`get_test_data_sizes`: the archive's byte size, or the sentinel `-1`
when `getsize` raises `OSError`. -/
def local_size (fs : FS) : Int :=
  match getsize fs with
  | some n => (n : Int)
  | none => -1

/-- The entries of the test-data directory (empty when the directory
does not exist); used to state what a run leaves in the directory. -/
def dirEntries (fs : FS) : List String :=
  match fs.dataDir with
  | some d => d.entries
  | none => []

/-- `extract_tar(test_data_archive, test_dir)` (lines 99-101): open the
archive and `extractall` into the directory.  Opening raises
`FileNotFoundError` when the archive file is absent; extraction adds
the archive's members to the directory's entries, keeping existing
entries and the archive file itself. -/
def extract_tar (members : List Nat → List String) (fs : FS) : RunResult :=
  match fs.dataDir with
  | some d =>
    match d.archive with
    | some b =>
      ⟨.ok, ⟨some ⟨some b, d.entries ++ members b⟩⟩, [.extractArchive]⟩
    | none => ⟨.raised .fileNotFound, fs, []⟩
  | none => ⟨.raised .fileNotFound, fs, []⟩

/-- `urllib.request.urlretrieve(url, test_data_archive)` (line 95): the
network request happens first (so a `netGet` event is always emitted),
then the response body is written to the archive path, which requires
the directory to exist. -/
def urlretrieve (remote : Remote) (fs : FS) : RunResult :=
  match remote.body with
  | none => ⟨.raised .netError, fs, [.netGet]⟩
  | some b =>
    match fs.dataDir with
    | none => ⟨.raised .fileNotFound, fs, [.netGet]⟩
    | some d => ⟨.ok, ⟨some ⟨some b, d.entries⟩⟩, [.netGet]⟩

/-- `download_and_extract_data(test_dir, test_data_archive, url)`
(lines 94-96): `urlretrieve` then `extract_tar`; an exception in the
download propagates. -/
def download_and_extract_data (remote : Remote) (members : List Nat → List String)
    (fs : FS) : RunResult :=
  let r1 := urlretrieve remote fs
  match r1.outcome with
  | .ok =>
    let r2 := extract_tar members r1.fs
    ⟨r2.outcome, r2.fs, r1.events ++ r2.events⟩
  | o => ⟨o, r1.fs, r1.events⟩

/-- `handle_existing_data(test_dir, test_data_archive, local_data)`
(lines 116-127).  With `local_data` false: `rmtree(test_dir)` only (no
recreation).  With `local_data` true: inside a
`tempfile.TemporaryDirectory()` context (removed on every exit path),
`copy2` the archive to the temporary directory — raising
`FileNotFoundError` if the archive is absent — then `rmtree(test_dir)`,
`mkdir(test_dir)`, and `copy2` the staged archive back to
`test_data_archive`. -/
def handle_existing_data (fs : FS) (local_data : Bool) : RunResult :=
  if local_data then
    match fs.dataDir with
    | some d =>
      match d.archive with
      | some b =>
        ⟨.ok, ⟨some ⟨some b, []⟩⟩,
          [.tempCreate, .copyToTemp, .rmtreeDir, .mkdirDir, .copyFromTemp,
            .tempRemove]⟩
      | none => ⟨.raised .fileNotFound, fs, [.tempCreate, .tempRemove]⟩
    | none => ⟨.raised .fileNotFound, fs, [.tempCreate, .tempRemove]⟩
  else
    match fs.dataDir with
    | some _ => ⟨.ok, ⟨none⟩, [.rmtreeDir]⟩
    | none => ⟨.raised .fileNotFound, fs, []⟩

/-- `extract_data_from_tar(test_dir, test_data_archive, url, local_data)`
(lines 104-113): prepare the directory (`handle_existing_data` when it
exists, `mkdir` otherwise), then either download-and-extract (url given
and not local data) or extract the local archive. -/
def extract_data_from_tar (remote : Remote) (members : List Nat → List String)
    (fs : FS) (url_given : Bool) (local_data : Bool) : RunResult :=
  let r1 :=
    match fs.dataDir with
    | some _ => handle_existing_data fs local_data
    | none => ⟨.ok, ⟨some ⟨none, []⟩⟩, [.mkdirDir]⟩
  match r1.outcome with
  | .ok =>
    let r2 :=
      if url_given && !local_data then download_and_extract_data remote members r1.fs
      else extract_tar members r1.fs
    ⟨r2.outcome, r2.fs, r1.events ++ r2.events⟩
  | o => ⟨o, r1.fs, r1.events⟩

/-- Result of `get_test_data_sizes`: the returned pair, a `pytest.exit`,
or an uncaught exception. -/
inductive SizesOutcome where
  | ok (local_size remote_size : Int)
  | exited
  | raised (e : Err)
deriving DecidableEq, Repr

/-- `get_test_data_sizes(config, test_data_archive)` (lines 195-213).
`local_size` is the archive size or the sentinel `-1` on `OSError`.
When `use_local_test_data` is unset the remote content length is
queried; on failure an error is logged and then either the session is
aborted (`pytest.exit`, no local archive) or the fallback `print` is
evaluated — whose f-string references `test_dir`, a name not defined in
this function, so it raises `NameError` instead of printing. -/
def get_test_data_sizes (useLocal : Bool) (remote : Remote) (fs : FS) :
    SizesOutcome × List Event :=
  if useLocal then
    (.ok (local_size fs) (-1), [])
  else
    match remote.headContentLength with
    | some n => (.ok (local_size fs) (n : Int), [.netHead])
    | none =>
      if local_size fs = -1 then
        (.exited, [.netHead, .logError])
      else
        (.raised .nameError, [.netHead, .logError])

/-- The test-data portion of `pytest_configure(config)` (lines 170-188):
compute the sizes, abort when local data was forced but is absent, then
either synchronise with the remote archive
(`download_and_extract_data` when the sizes differ, nothing when they
match) or extract the forced local archive.  The marker registrations
and the trailing numba-compatibility setting do not touch the test-data
state and are outside this model. -/
def pytest_configure (useLocal : Bool) (remote : Remote)
    (members : List Nat → List String) (fs : FS) : RunResult :=
  match get_test_data_sizes useLocal remote fs with
  | (.exited, ev) => ⟨.exited, fs, ev⟩
  | (.raised e, ev) => ⟨.raised e, fs, ev⟩
  | (.ok local_size remote_size, ev) =>
    if useLocal && decide (local_size = -1) then
      ⟨.exited, fs, ev⟩
    else
      let ev := if useLocal then ev ++ [.printMsg] else ev
      if !useLocal then
        if decide (remote_size ≠ local_size) then
          let r := download_and_extract_data remote members fs
          ⟨r.outcome, r.fs, ev ++ r.events⟩
        else
          ⟨.ok, fs, ev ++ [.printMsg]⟩
      else
        let r := extract_tar members fs
        ⟨r.outcome, r.fs, ev ++ r.events⟩

/-- The `device` fixture (lines 46-51): `"CPU"` when `--cpu` was
passed, `"GPU"` otherwise. -/
def device (cpu : Bool) : String :=
  if cpu then "CPU" else "GPU"

/-- The autouse `run_only_on_device_fixture` (lines 54-58): a test is
skipped iff it carries a `run_only_on` marker whose first argument
differs from the resolved device. -/
def run_only_on_skips (markerArg : Option String) (cpu : Bool) : Bool :=
  match markerArg with
  | some d => d ≠ device cpu
  | none => false

/-- Existence of the three experiment directories the
`cleanup_local_folder` fixture watches. -/
structure ExpDirs where
  lightning_logs : Bool
  nemo_experiments_upper : Bool
  nemo_experiments_lower : Bool
deriving DecidableEq, Repr

/-- The setup half of the autouse `cleanup_local_folder` fixture
(lines 77-79): the three `assert not Path(...).exists()` statements
pass iff none of the directories exists; otherwise the test errors
before its body runs. -/
def cleanup_setup_passes (d : ExpDirs) : Bool :=
  !d.lightning_logs && !d.nemo_experiments_upper && !d.nemo_experiments_lower

/-- The teardown half of `cleanup_local_folder` (lines 83-86): each of
the three directories that exists is removed with
`rmtree(..., ignore_errors=True)`. -/
def cleanup_teardown (_d : ExpDirs) : ExpDirs :=
  ⟨false, false, false⟩

/-- A concrete member-name function used to instantiate theorems on
closed inputs: an archive whose bytes are `[1, 2, 3]` extracts the
single entry `"new"`, any other archive extracts the entry `"other"`. -/
def demoMembers (b : List Nat) : List String :=
  if b = [1, 2, 3] then ["new"] else ["other"]

/-- C1: the claim says that when the remote content-length query fails
with `use_local_test_data` unset and a local archive present, a warning
is logged and the run proceeds on the local archive with no further
download.  At such an input the code does log the error, but the
fallback `print` in `get_test_data_sizes` references `test_dir`, a name
not defined in that function, so the session dies with `NameError`
instead of proceeding. -/
theorem C1_remote_failure_with_local_archive_raises :
    (pytest_configure false ⟨none, none⟩ demoMembers
        ⟨some ⟨some [5, 5, 5], []⟩⟩).outcome = .raised .nameError ∧
    Event.logError ∈ (pytest_configure false ⟨none, none⟩ demoMembers
        ⟨some ⟨some [5, 5, 5], []⟩⟩).events ∧
    (get_test_data_sizes false ⟨none, none⟩
        ⟨some ⟨some [5, 5, 5], []⟩⟩).1 = .raised .nameError := by
  decide

/-- C2: with `use_local_test_data` set and the local archive absent
(`getsize` raises), `pytest_configure` calls `pytest.exit`, leaving the
filesystem untouched: no extraction, no metadata query, no download. -/
theorem C2_use_local_without_archive_aborts (remote : Remote)
    (members : List Nat → List String) (fs : FS)
    (h : getsize fs = none) :
    (pytest_configure true remote members fs).outcome = .exited ∧
    (pytest_configure true remote members fs).fs = fs ∧
    Event.extractArchive ∉ (pytest_configure true remote members fs).events ∧
    Event.netHead ∉ (pytest_configure true remote members fs).events ∧
    Event.netGet ∉ (pytest_configure true remote members fs).events := by
  simp [pytest_configure, get_test_data_sizes, local_size, h]

/-- Witness for C2 at a concrete input: no data directory at all. -/
theorem C2_use_local_without_archive_aborts_witness :
    getsize ⟨none⟩ = none ∧
    ((pytest_configure true ⟨some 7, some [1]⟩ demoMembers ⟨none⟩).outcome
        = .exited ∧
      (pytest_configure true ⟨some 7, some [1]⟩ demoMembers ⟨none⟩).fs
        = ⟨none⟩ ∧
      Event.extractArchive ∉
        (pytest_configure true ⟨some 7, some [1]⟩ demoMembers ⟨none⟩).events ∧
      Event.netHead ∉
        (pytest_configure true ⟨some 7, some [1]⟩ demoMembers ⟨none⟩).events ∧
      Event.netGet ∉
        (pytest_configure true ⟨some 7, some [1]⟩ demoMembers ⟨none⟩).events) :=
  ⟨rfl, C2_use_local_without_archive_aborts ⟨some 7, some [1]⟩ demoMembers ⟨none⟩ rfl⟩

/-- C3 is false as stated: at a session with `use_local_test_data`
unset, a local archive of 2 bytes, a remote of 3 bytes, and a prior
directory entry `"old"`, the download and extraction do happen but the
prior entry `"old"` is still in the directory afterwards —
`pytest_configure` calls `download_and_extract_data`, which never
clears the directory, so prior contents are not replaced. -/
theorem C3_prior_contents_not_replaced :
    (pytest_configure false ⟨some 3, some [1, 2, 3]⟩ demoMembers
        ⟨some ⟨some [0, 0], ["old"]⟩⟩).outcome = .ok ∧
    Event.netGet ∈ (pytest_configure false ⟨some 3, some [1, 2, 3]⟩ demoMembers
        ⟨some ⟨some [0, 0], ["old"]⟩⟩).events ∧
    Event.extractArchive ∈ (pytest_configure false ⟨some 3, some [1, 2, 3]⟩
        demoMembers ⟨some ⟨some [0, 0], ["old"]⟩⟩).events ∧
    "old" ∈ dirEntries (pytest_configure false ⟨some 3, some [1, 2, 3]⟩
        demoMembers ⟨some ⟨some [0, 0], ["old"]⟩⟩).fs := by
  decide

/-- C3 amended: with `use_local_test_data` unset and the queried remote
size differing from the local size (the sentinel `-1` included),
`pytest_configure` always attempts the download.  When the data
directory exists, the remote body overwrites the local archive
(creating the file if it was absent) and is then extracted on top of
the directory's prior contents — the prior entries remain, followed by
the extracted members.  When the data directory does not exist (the
fresh-run shape of "no local file"), the download itself fails with
`FileNotFoundError`, because `urlretrieve`'s target path lies inside
the missing directory and `pytest_configure` never creates it — so no
archive is written and no extraction occurs. -/
theorem C3_mismatch_attempts_download (remote : Remote)
    (members : List Nat → List String) (fs : FS) (r : Nat) (b : List Nat)
    (hhead : remote.headContentLength = some r)
    (hneq : (r : Int) ≠ local_size fs)
    (hbody : remote.body = some b) :
    pytest_configure false remote members fs =
      match fs.dataDir with
      | some d =>
        ⟨.ok, ⟨some ⟨some b, d.entries ++ members b⟩⟩,
          [.netHead, .netGet, .extractArchive]⟩
      | none => ⟨.raised .fileNotFound, fs, [.netHead, .netGet]⟩ := by
  cases hdir : fs.dataDir with
  | some d =>
    simp [pytest_configure, get_test_data_sizes, download_and_extract_data,
      urlretrieve, extract_tar, hdir, hhead, hbody, hneq]
  | none =>
    simp [pytest_configure, get_test_data_sizes, download_and_extract_data,
      urlretrieve, hdir, hhead, hbody, hneq]

/-- Witness for the amended C3, exercising both branches: first with
the directory existing but the archive file absent (local size is the
sentinel, remote delivers `[1, 2, 3]`, overlay extraction succeeds),
then with the directory absent (same mismatch, the download raises
`FileNotFoundError` and the filesystem is untouched). -/
theorem C3_mismatch_attempts_download_witness :
    ((Remote.mk (some 3) (some [1, 2, 3])).headContentLength = some 3 ∧
      ((3 : Nat) : Int) ≠ local_size ⟨some ⟨none, ["old"]⟩⟩ ∧
      (Remote.mk (some 3) (some [1, 2, 3])).body = some [1, 2, 3] ∧
      pytest_configure false ⟨some 3, some [1, 2, 3]⟩ demoMembers
          ⟨some ⟨none, ["old"]⟩⟩ =
        ⟨.ok, ⟨some ⟨some [1, 2, 3], ["old"] ++ demoMembers [1, 2, 3]⟩⟩,
          [.netHead, .netGet, .extractArchive]⟩) ∧
    (((3 : Nat) : Int) ≠ local_size ⟨none⟩ ∧
      pytest_configure false ⟨some 3, some [1, 2, 3]⟩ demoMembers ⟨none⟩ =
        ⟨.raised .fileNotFound, ⟨none⟩, [.netHead, .netGet]⟩) :=
  ⟨⟨rfl, by decide, rfl,
      C3_mismatch_attempts_download ⟨some 3, some [1, 2, 3]⟩ demoMembers
        ⟨some ⟨none, ["old"]⟩⟩ 3 [1, 2, 3] rfl (by decide) rfl⟩,
    ⟨by decide,
      C3_mismatch_attempts_download ⟨some 3, some [1, 2, 3]⟩ demoMembers
        ⟨none⟩ 3 [1, 2, 3] rfl (by decide) rfl⟩⟩

/-- C4 is false as stated: with an existing directory and preservation
not requested, `handle_existing_data` only runs `rmtree` — afterwards
the directory does not exist (it is not the claimed fresh, existing,
empty directory) and no `mkdir` was performed before extraction. -/
theorem C4_directory_not_recreated :
    (handle_existing_data ⟨some ⟨some [1, 2], ["old"]⟩⟩ false).fs.dataDir
      = none ∧
    (handle_existing_data ⟨some ⟨some [1, 2], ["old"]⟩⟩ false).fs.dataDir
      ≠ some ⟨none, []⟩ ∧
    Event.mkdirDir ∉
      (handle_existing_data ⟨some ⟨some [1, 2], ["old"]⟩⟩ false).events := by
  decide

/-- C4 amended: with an existing directory and preservation not
requested, `handle_existing_data` deletes the directory and does not
recreate it — extraction then starts with the directory (and the
archive inside it) absent. -/
theorem C4_existing_directory_deleted (fs : FS) (d : DirState)
    (hdir : fs.dataDir = some d) :
    (handle_existing_data fs false).outcome = .ok ∧
    (handle_existing_data fs false).fs.dataDir = none ∧
    (handle_existing_data fs false).events = [.rmtreeDir] := by
  simp [handle_existing_data, hdir]

/-- Witness for the amended C4. -/
theorem C4_existing_directory_deleted_witness :
    (⟨some ⟨some [1, 2], ["old"]⟩⟩ : FS).dataDir = some ⟨some [1, 2], ["old"]⟩ ∧
    ((handle_existing_data ⟨some ⟨some [1, 2], ["old"]⟩⟩ false).outcome = .ok ∧
      (handle_existing_data ⟨some ⟨some [1, 2], ["old"]⟩⟩ false).fs.dataDir
        = none ∧
      (handle_existing_data ⟨some ⟨some [1, 2], ["old"]⟩⟩ false).events
        = [.rmtreeDir]) :=
  ⟨rfl, C4_existing_directory_deleted ⟨some ⟨some [1, 2], ["old"]⟩⟩
    ⟨some [1, 2], ["old"]⟩ rfl⟩

/-- C5: with `use_local_test_data` unset and the queried remote content
length equal to the local archive's size, `pytest_configure` performs
no download and no re-extraction and leaves the filesystem exactly as
it was — so repeated runs with unchanged remote data never
re-download. -/
theorem C5_sizes_match_skips_download (remote : Remote)
    (members : List Nat → List String) (fs : FS) (d : DirState) (b : List Nat)
    (hdir : fs.dataDir = some d) (harch : d.archive = some b)
    (hhead : remote.headContentLength = some b.length) :
    (pytest_configure false remote members fs).outcome = .ok ∧
    (pytest_configure false remote members fs).fs = fs ∧
    Event.netGet ∉ (pytest_configure false remote members fs).events ∧
    Event.extractArchive ∉ (pytest_configure false remote members fs).events := by
  simp [pytest_configure, get_test_data_sizes, local_size, getsize, hdir,
    harch, hhead]

/-- Witness for C5: a 2-byte archive matching a 2-byte remote. -/
theorem C5_sizes_match_skips_download_witness :
    (⟨some ⟨some [0, 0], ["old"]⟩⟩ : FS).dataDir = some ⟨some [0, 0], ["old"]⟩ ∧
    (⟨some [0, 0], ["old"]⟩ : DirState).archive = some [0, 0] ∧
    (Remote.mk (some 2) (some [9])).headContentLength
      = some (List.length [0, 0]) ∧
    ((pytest_configure false ⟨some 2, some [9]⟩ demoMembers
        ⟨some ⟨some [0, 0], ["old"]⟩⟩).outcome = .ok ∧
      (pytest_configure false ⟨some 2, some [9]⟩ demoMembers
        ⟨some ⟨some [0, 0], ["old"]⟩⟩).fs = ⟨some ⟨some [0, 0], ["old"]⟩⟩ ∧
      Event.netGet ∉ (pytest_configure false ⟨some 2, some [9]⟩ demoMembers
        ⟨some ⟨some [0, 0], ["old"]⟩⟩).events ∧
      Event.extractArchive ∉ (pytest_configure false ⟨some 2, some [9]⟩
        demoMembers ⟨some ⟨some [0, 0], ["old"]⟩⟩).events) :=
  ⟨rfl, rfl, rfl,
    C5_sizes_match_skips_download ⟨some 2, some [9]⟩ demoMembers
      ⟨some ⟨some [0, 0], ["old"]⟩⟩ ⟨some [0, 0], ["old"]⟩ [0, 0] rfl rfl rfl⟩

/-- C6: with `use_local_test_data` set and a local archive present,
`pytest_configure` performs no network operation at all — neither the
metadata query nor a download — and extracts the existing archive
as-is: the archive bytes are unchanged and its members are added to the
directory. -/
theorem C6_use_local_no_network (remote : Remote)
    (members : List Nat → List String) (fs : FS) (d : DirState) (b : List Nat)
    (hdir : fs.dataDir = some d) (harch : d.archive = some b) :
    (pytest_configure true remote members fs).outcome = .ok ∧
    Event.netHead ∉ (pytest_configure true remote members fs).events ∧
    Event.netGet ∉ (pytest_configure true remote members fs).events ∧
    (pytest_configure true remote members fs).fs =
      ⟨some ⟨some b, d.entries ++ members b⟩⟩ ∧
    Event.extractArchive ∈ (pytest_configure true remote members fs).events := by
  have hne : ¬((b.length : Int) = -1) := by omega
  simp [pytest_configure, get_test_data_sizes, local_size, getsize,
    extract_tar, hdir, harch, hne]

/-- Witness for C6. -/
theorem C6_use_local_no_network_witness :
    (⟨some ⟨some [1, 2, 3], ["old"]⟩⟩ : FS).dataDir
      = some ⟨some [1, 2, 3], ["old"]⟩ ∧
    (⟨some [1, 2, 3], ["old"]⟩ : DirState).archive = some [1, 2, 3] ∧
    ((pytest_configure true ⟨some 9, some [9]⟩ demoMembers
        ⟨some ⟨some [1, 2, 3], ["old"]⟩⟩).outcome = .ok ∧
      Event.netHead ∉ (pytest_configure true ⟨some 9, some [9]⟩ demoMembers
        ⟨some ⟨some [1, 2, 3], ["old"]⟩⟩).events ∧
      Event.netGet ∉ (pytest_configure true ⟨some 9, some [9]⟩ demoMembers
        ⟨some ⟨some [1, 2, 3], ["old"]⟩⟩).events ∧
      (pytest_configure true ⟨some 9, some [9]⟩ demoMembers
        ⟨some ⟨some [1, 2, 3], ["old"]⟩⟩).fs =
        ⟨some ⟨some [1, 2, 3], ["old"] ++ demoMembers [1, 2, 3]⟩⟩ ∧
      Event.extractArchive ∈ (pytest_configure true ⟨some 9, some [9]⟩
        demoMembers ⟨some ⟨some [1, 2, 3], ["old"]⟩⟩).events) :=
  ⟨rfl, rfl,
    C6_use_local_no_network ⟨some 9, some [9]⟩ demoMembers
      ⟨some ⟨some [1, 2, 3], ["old"]⟩⟩ ⟨some [1, 2, 3], ["old"]⟩ [1, 2, 3]
      rfl rfl⟩

/-- C7: with the directory existing and preservation requested,
`handle_existing_data` stages the archive in a temporary directory,
wipes and recreates the data directory, and copies the archive back:
the archive bytes are identical before and after, and the trace shows
copy-out, wipe, recreate, copy-back in that order inside the temporary
directory's lifetime. -/
theorem C7_preserving_copy_keeps_archive (fs : FS) (d : DirState)
    (b : List Nat)
    (hdir : fs.dataDir = some d) (harch : d.archive = some b) :
    (handle_existing_data fs true).outcome = .ok ∧
    (handle_existing_data fs true).fs = ⟨some ⟨some b, []⟩⟩ ∧
    (handle_existing_data fs true).events =
      [.tempCreate, .copyToTemp, .rmtreeDir, .mkdirDir, .copyFromTemp,
        .tempRemove] := by
  simp [handle_existing_data, hdir, harch]

/-- Witness for C7. -/
theorem C7_preserving_copy_keeps_archive_witness :
    (⟨some ⟨some [1, 2], ["old"]⟩⟩ : FS).dataDir = some ⟨some [1, 2], ["old"]⟩ ∧
    (⟨some [1, 2], ["old"]⟩ : DirState).archive = some [1, 2] ∧
    ((handle_existing_data ⟨some ⟨some [1, 2], ["old"]⟩⟩ true).outcome = .ok ∧
      (handle_existing_data ⟨some ⟨some [1, 2], ["old"]⟩⟩ true).fs
        = ⟨some ⟨some [1, 2], []⟩⟩ ∧
      (handle_existing_data ⟨some ⟨some [1, 2], ["old"]⟩⟩ true).events =
        [.tempCreate, .copyToTemp, .rmtreeDir, .mkdirDir, .copyFromTemp,
          .tempRemove]) :=
  ⟨rfl, rfl,
    C7_preserving_copy_keeps_archive ⟨some ⟨some [1, 2], ["old"]⟩⟩
      ⟨some [1, 2], ["old"]⟩ [1, 2] rfl rfl⟩

/-- C8: a test carrying a `run_only_on` marker is skipped exactly when
the marker's device argument differs from the device the fixture
resolves; in particular a `run_only_on("GPU")` test is skipped under
`--cpu` and a `run_only_on("CPU")` test is skipped without it, while an
unmarked test is never skipped by this fixture. -/
theorem C8_run_only_on_gates_device (arg : String) (cpu : Bool) :
    (run_only_on_skips (some arg) cpu = true ↔ arg ≠ device cpu) ∧
    run_only_on_skips (some "GPU") true = true ∧
    run_only_on_skips (some "CPU") false = true ∧
    run_only_on_skips (some (device cpu)) cpu = false ∧
    run_only_on_skips none cpu = false := by
  refine ⟨?_, by decide, by decide, ?_, rfl⟩ <;>
    simp [run_only_on_skips, device]

/-- C9: `handle_existing_data` with preservation requested creates its
temporary holding directory inside a `with` block, so on every exit
path — the copy-back completing or any step raising — the temporary
directory is removed: every trace contains the creation and the
removal, in equal number. -/
theorem C9_temp_dir_always_removed (fs : FS) :
    Event.tempCreate ∈ (handle_existing_data fs true).events ∧
    Event.tempRemove ∈ (handle_existing_data fs true).events ∧
    List.count Event.tempRemove (handle_existing_data fs true).events =
      List.count Event.tempCreate (handle_existing_data fs true).events := by
  obtain ⟨dd⟩ := fs
  match dd with
  | none => decide
  | some ⟨none, es⟩ => simp [handle_existing_data]
  | some ⟨some b, es⟩ => simp [handle_existing_data]

/-- C10: the autouse `cleanup_local_folder` fixture's setup assertions
pass exactly when none of the three experiment directories exists
(otherwise the test fails before its body runs), and its teardown
removes every one of them that exists — so after any teardown, the next
test's setup sees no leftover experiment directory. -/
theorem C10_cleanup_local_folder (d e : ExpDirs) :
    (cleanup_setup_passes d = true ↔
      d.lightning_logs = false ∧ d.nemo_experiments_upper = false ∧
        d.nemo_experiments_lower = false) ∧
    cleanup_teardown e = ⟨false, false, false⟩ ∧
    cleanup_setup_passes (cleanup_teardown e) = true := by
  obtain ⟨a, b, c⟩ := d
  cases a <;> cases b <;> cases c <;>
    simp [cleanup_setup_passes, cleanup_teardown]

end AiTestsuite
